import Mathlib

/-!
# Verification of the Mebella catalog API glue layer

A shallow embedding, in Lean 4, of the application logic of the Mebella
furniture-catalog backend (`src/main.py`, `src/schemas.py`): document
serialization, query-filter construction, request validation, the HTTP
handlers and the seeder.  The document store itself (the `database` module
is not part of the sources; MongoDB is an external black box) is modelled
explicitly and is marked as such in the doc comments of the corresponding
definitions.

Python `dict` values are modelled as association lists of `String × BVal`
(field order is preserved but never significant for any property proved
here); Python exceptions are modelled with `Except`, and FastAPI responses
with `HResult` (a payload or an HTTP error status plus detail string).
Numeric JSON values are modelled as `Int` (every numeric literal in the
sources is an integer and the only numeric constraints are order
comparisons with 0).
-/

set_option autoImplicit false
set_option maxRecDepth 8000

namespace Mebella

/-- A BSON-ish document value: strings, numbers, ObjectIds (modelled by their
24-character hex rendering), datetimes (abstracted to a tick count), null,
arrays and nested documents. -/
inductive BVal where
  | vStr : String → BVal
  | vInt : Int → BVal
  | vOid : String → BVal
  | vDate : Nat → BVal
  | vNull : BVal
  | vList : List BVal → BVal
  | vDoc : List (String × BVal) → BVal

/-- A stored document: a Python dict, modelled as an association list. -/
abbrev Doc := List (String × BVal)

/-- Python truthiness of a value (`if doc.get("_id")`): empty strings,
zero, null, empty lists and empty dicts are falsy. -/
def truthy : BVal → Bool
  | .vStr s => !s.isEmpty
  | .vInt n => n != 0
  | .vOid _ => true
  | .vDate _ => true
  | .vNull => false
  | .vList l => !l.isEmpty
  | .vDoc l => !l.isEmpty

/-- Python `str()` on the document values that reach it in the handlers:
ObjectIds render as their hex string, datetimes as a decimal tick string.
(Lists and nested documents never reach `str()` in the handlers; they are
given an arbitrary fixed rendering to keep the function total.) -/
def pyStr : BVal → String
  | .vStr s => s
  | .vInt n => toString n
  | .vOid h => h
  | .vDate n => toString n
  | .vNull => "None"
  | .vList _ => "<list>"
  | .vDoc _ => "<dict>"

/-- `doc.get(k)`: first value stored under key `k`, if any. -/
def dictGet (d : Doc) (k : String) : Option BVal :=
  match d.find? (fun p => p.1 == k) with
  | some p => some p.2
  | none => none

/-- Remove the binding of key `k` (a `dict` holds each key at most once, so
filtering every occurrence agrees with Python `pop` on reachable inputs). -/
def dictRemove (d : Doc) (k : String) : Doc :=
  d.filter (fun p => p.1 != k)

/-- `doc[k] = v`: replace the binding of `k`, or append it if absent.
(Python keeps an updated key at its old position; no property proved here
depends on field order, so the binding is re-appended at the end.) -/
def dictSet (d : Doc) (k : String) (v : BVal) : Doc :=
  dictRemove d k ++ [(k, v)]

/-- ASCII case folding of one character, as the store's case-insensitive
(`$options: "i"`) matching performs by default on the pattern constructs
modelled here. -/
def lowerChar (c : Char) : Char :=
  if c = 'A' then 'a' else if c = 'B' then 'b' else if c = 'C' then 'c' else
  if c = 'D' then 'd' else if c = 'E' then 'e' else if c = 'F' then 'f' else
  if c = 'G' then 'g' else if c = 'H' then 'h' else if c = 'I' then 'i' else
  if c = 'J' then 'j' else if c = 'K' then 'k' else if c = 'L' then 'l' else
  if c = 'M' then 'm' else if c = 'N' then 'n' else if c = 'O' then 'o' else
  if c = 'P' then 'p' else if c = 'Q' then 'q' else if c = 'R' then 'r' else
  if c = 'S' then 's' else if c = 'T' then 't' else if c = 'U' then 'u' else
  if c = 'V' then 'v' else if c = 'W' then 'w' else if c = 'X' then 'x' else
  if c = 'Y' then 'y' else if c = 'Z' then 'z' else c

/-- Does `needle` occur at the head of `haystack`, comparing characters
case-insensitively? -/
def chStarts : List Char → List Char → Bool
  | [], _ => true
  | _ :: _, [] => false
  | p :: ps, c :: cs => lowerChar p == lowerChar c && chStarts ps cs

/-- Does `needle` occur contiguously anywhere in `haystack`, comparing
characters case-insensitively? -/
def chSub (needle : List Char) : List Char → Bool
  | [] => chStarts needle []
  | c :: cs => chStarts needle (c :: cs) || chSub needle cs

/-- Case-insensitive substring containment: does `text` contain `pat`?
This is the relation the spec uses to describe the search filter. -/
def containsCI (text pat : String) : Bool :=
  chSub pat.toList text.toList

/-- One regular-expression pattern character against one text character,
under the `i` option: `.` matches anything, every other character matches
itself up to case.  This models the store's regex engine on the pattern
constructs reasoned about in this development (literal characters and the
`.` wildcard); no filter proved about below uses any other construct. -/
def charMatch (p c : Char) : Bool :=
  p == '.' || lowerChar p == lowerChar c

/-- Match a pattern against the head of a text. -/
def matchHere : List Char → List Char → Bool
  | [], _ => true
  | _ :: _, [] => false
  | p :: ps, c :: cs => charMatch p c && matchHere ps cs

/-- Unanchored regex search: does the pattern match anywhere in the text? -/
def regexFind (pat : List Char) : List Char → Bool
  | [] => matchHere pat []
  | c :: cs => matchHere pat (c :: cs) || regexFind pat cs

/-- Case-insensitive unanchored regex search, as the store performs for
`{"$regex": pat, "$options": "i"}` (main.py lines 84-87). -/
def regexFindCI (pat text : String) : Bool :=
  regexFind pat.toList text.toList

/-- The regex metacharacters of the store's (PCRE) engine.  A pattern free
of all of them is matched purely literally. -/
def isRegexMeta (c : Char) : Bool :=
  c == '.' || c == '^' || c == '$' || c == '*' || c == '+' || c == '?' ||
  c == '(' || c == ')' || c == '[' || c == ']' || c == '|' || c == '\\'

/-- A search string with no regex metacharacter; on such strings regex
search and substring containment coincide. -/
def isLiteralPattern (s : String) : Bool :=
  s.toList.all (fun c => !isRegexMeta c)

/-- `if category:` on an `Optional[str]`: present and non-empty. -/
def pyTruthyStr : Option String → Option String
  | some s => if s.isEmpty then none else some s
  | none => none

/-- The store filter built by `list_products` (main.py lines 79-87):
`category` carries the exact-equality condition when the query parameter is
truthy, `search` the `$or`-of-`$regex` condition when truthy. -/
structure Filter where
  category : Option String
  search : Option String
deriving DecidableEq

/-- Filter construction of `list_products` (main.py lines 79-87): a
condition is added exactly when the corresponding parameter is truthy. -/
def buildFilter (category search : Option String) : Filter :=
  { category := pyTruthyStr category, search := pyTruthyStr search }

/-- Is this document value the given string? (Store equality of a string
filter value against a stored field.) -/
def bvalEqStr : BVal → String → Bool
  | .vStr t, c => t == c
  | _, _ => false

/-- Store condition `{k: c}`: the field `k` holds exactly the string `c`. -/
def fieldEq (d : Doc) (k c : String) : Bool :=
  match dictGet d k with
  | some v => bvalEqStr v c
  | none => false

/-- Store condition `{k: {"$regex": pat, "$options": "i"}}`: the field `k`
holds a string containing a case-insensitive match of `pat`; a missing or
non-string field never matches. -/
def fieldRegexI (d : Doc) (k pat : String) : Bool :=
  match dictGet d k with
  | some (.vStr t) => regexFindCI pat t
  | _ => false

/-- Modelled from the spec: the store adapter's `find` (the `database`
module is not among the sources) passes the filter dict straight to the
document store; matching follows MongoDB semantics for the filters built by
`list_products` — exact equality on `category`, `$or` of case-insensitive
`$regex` conditions on `name` and `description`. -/
def matchesFilter (f : Filter) (d : Doc) : Bool :=
  (match f.category with
   | none => true
   | some c => fieldEq d "category" c)
  &&
  (match f.search with
   | none => true
   | some s => fieldRegexI d "name" s || fieldRegexI d "description" s)

/-- Case-insensitive substring condition on a stored string field — the
SPEC's wording of the search condition ("the stored name field OR
description field to contain the search text as a substring,
case-insensitively"), stated for comparison with `matchesFilter`. -/
def fieldContainsCI (d : Doc) (k pat : String) : Bool :=
  match dictGet d k with
  | some (.vStr t) => containsCI t pat
  | _ => false

/-- The SPEC's search condition: name or description contains the search
text as a case-insensitive substring. -/
def searchSpecCond (d : Doc) (pat : String) : Bool :=
  fieldContainsCI d "name" pat || fieldContainsCI d "description" pat

/-! ## The store -/

/-- Modelled from the spec: the state visible to the handlers through the
`database` module (not among the sources) — whether `db` is `None`
(connection failure at startup reported as unavailability, spec 4.1), the
documents of the `product` collection, and whether a `count` call fails
with a store read error. -/
structure Store where
  available : Bool
  docs : List Doc
  countFails : Bool

/-- A 24-character hex string, as produced for ObjectIds assigned by the
store.  Purely a supply of distinct well-formed ids. -/
def oidFromNat (n : Nat) : String :=
  let hex := (Nat.toDigits 16 n).asString
  ⟨List.replicate (24 - hex.length) '0'⟩ ++ hex

/-- Modelled from the spec: the adapter's `insert` (`create_document` of
the `database` module, not among the sources) persists the document into
the collection and returns a store-assigned id (spec 4.1). -/
def create_document (s : Store) (d : Doc) : String × Store :=
  let oid := oidFromNat s.docs.length
  (oid, { s with docs := s.docs ++ [("_id", .vOid oid) :: d] })

/-- Modelled from the spec: the adapter's `find` (`get_documents` of the
`database` module, not among the sources) returns up to `limit` matching
documents in store order (spec 4.1). -/
def get_documents (s : Store) (f : Filter) (lim : Nat) : List Doc :=
  (s.docs.filter (fun d => matchesFilter f d)).take lim

/-! ## HTTP plumbing -/

/-- Result of a handler: a 200 payload, or an `HTTPException` with a status
code and a detail string. -/
inductive HResult (α : Type) where
  | ok : α → HResult α
  | httpError : Nat → String → HResult α

/-- HTTP status code of a handler result. -/
def HResult.status {α : Type} : HResult α → Nat
  | .ok _ => 200
  | .httpError n _ => n

/-- A Python exception as seen by an `except Exception` clause: either an
`HTTPException` raised by the handler itself, or any other exception
carrying a message. -/
inductive PyExc where
  | httpExc : Nat → String → PyExc
  | exc : String → PyExc

/-- `str(e)` on a caught exception (starlette's `HTTPException` renders as
`"<status>: <detail>"`). -/
def strExc : PyExc → String
  | .httpExc n d => toString n ++ ": " ++ d
  | .exc m => m

/-! ## Serialization -/

/-- Coerce the value of key `k` to a string if the key is present
(`doc[k] = str(doc[k])`). -/
def coerceStr (d : Doc) (k : String) : Doc :=
  match dictGet d k with
  | some v => dictSet d k (.vStr (pyStr v))
  | none => d

/-- The `serialize` closure of `list_products` (main.py lines 90-95):
if `_id` is truthy it is popped and re-exposed as a string under `id`,
otherwise `id` is set to `None` (and `_id`, when present but falsy, stays);
`created_at`/`updated_at` are coerced to strings when present. -/
def serialize (d : Doc) : Doc :=
  let d1 :=
    match dictGet d "_id" with
    | some v =>
      if truthy v then dictSet (dictRemove d "_id") "id" (.vStr (pyStr v))
      else dictSet d "id" .vNull
    | none => dictSet d "id" .vNull
  coerceStr (coerceStr d1 "created_at") "updated_at"

/-- The inline serialization of `get_product` (main.py lines 108-111):
`doc.pop("_id")` unconditionally (a `KeyError` if absent), then the same
string coercions. -/
def serializeGet (d : Doc) : Except PyExc Doc :=
  match dictGet d "_id" with
  | none => .error (.exc "KeyError: _id")
  | some v =>
    .ok (coerceStr (coerceStr (dictSet (dictRemove d "_id") "id" (.vStr (pyStr v))) "created_at") "updated_at")

/-! ## list_products -/

/-- FastAPI validation of the `limit` query parameter, as declared
`Query(50, ge=1, le=200)` (main.py line 75): 50 when omitted, any value in
[1, 200] accepted, anything else rejected as a request validation error
(HTTP 422) before the handler runs. -/
def validate_limit : Option Int → Except String Nat
  | none => .ok 50
  | some n =>
    if 1 ≤ n ∧ n ≤ 200 then .ok n.toNat
    else .error "limit: value out of range [1, 200]"

/-- The `list_products` handler (main.py lines 71-98): validate `limit`,
build the filter, fetch, serialize each document; a store failure (here:
unavailability) maps to HTTP 500. -/
def list_products (s : Store) (category search : Option String) (limit : Option Int) :
    HResult (List Doc) :=
  match validate_limit limit with
  | .error e => .httpError 422 e
  | .ok lim =>
    if s.available then
      .ok ((get_documents s (buildFilter category search) lim).map serialize)
    else
      .httpError 500 "database not available"

/-! ## get_product -/

/-- Is a hex digit (as `bson.ObjectId` accepts)? -/
def isHexDig (c : Char) : Bool :=
  c.isDigit || ('a' ≤ c && c ≤ 'f') || ('A' ≤ c && c ≤ 'F')

/-- `ObjectId(product_id)` succeeds on a path parameter exactly when it is
a 24-character hex string. -/
def isValidObjectId (s : String) : Bool :=
  s.length == 24 && s.toList.all isHexDig

/-- Does this document's `_id` equal the given ObjectId? -/
def docHasOid (d : Doc) (h : String) : Bool :=
  match dictGet d "_id" with
  | some (.vOid x) => x == h
  | _ => false

/-- The body of `get_product`'s `try` block (main.py lines 103-112):
`ObjectId(product_id)` raises `InvalidId` on a malformed id; `db` being
`None` raises a `TypeError`; `find_one` returns the first matching
document or `None`; a missing document raises `HTTPException(404)` —
still inside the `try`. -/
def get_product_try (s : Store) (pid : String) : Except PyExc Doc :=
  if !s.available then
    .error (.exc "TypeError: NoneType object is not subscriptable")
  else if !isValidObjectId pid then
    .error (.exc ("InvalidId: " ++ pid ++ " is not a valid ObjectId"))
  else
    match s.docs.find? (fun d => docHasOid d (pid.toLower)) with
    | none => .error (.httpExc 404 "Product not found")
    | some d => serializeGet d

/-- The `get_product` handler (main.py lines 101-114): the `try` body
above, with `except Exception as e: raise HTTPException(500, str(e))` — a
blanket clause that also catches the handler's own `HTTPException(404)`. -/
def get_product (s : Store) (pid : String) : HResult Doc :=
  match get_product_try s pid with
  | .ok d => .ok d
  | .error e => .httpError 500 (strExc e)

/-! ## test_database (diagnostics) -/

/-- The payload of the `/test` diagnostics endpoint (main.py lines 32-39). -/
structure TestResponse where
  backend : String
  database : String
  database_url : Option String
  database_name : Option String
  connection_status : String
  collections : List String
deriving DecidableEq

/-- The initial response dict of `test_database` (main.py lines 32-39). -/
def testResponseInit : TestResponse :=
  { backend := "✅ Running"
    database := "❌ Not Available"
    database_url := none
    database_name := none
    connection_status := "Not Connected"
    collections := [] }

/-- The `try` body of `test_database` (main.py lines 41-54), over the
observable store state: whether `db` is `None`, the optional `db.name`,
the outcome of `db.list_collection_names()` (the one store call, which may
raise), and whether `DATABASE_URL` is set in the environment.  The inner
`try`/`except` around `list_collection_names` is translated by the match
on its `Except` outcome. -/
def test_database_try (avail : Bool) (dbName : Option String)
    (listColl : Except String (List String)) (urlSet : Bool) :
    Except PyExc TestResponse :=
  if avail then
    let r1 : TestResponse :=
      { testResponseInit with
        database := "✅ Available"
        database_url := some (if urlSet then "✅ Set" else "❌ Not Set")
        database_name := some (dbName.getD "✅ Connected")
        connection_status := "Connected" }
    match listColl with
    | .ok cols =>
      .ok { r1 with collections := cols.take 10, database := "✅ Connected & Working" }
    | .error e =>
      .ok { r1 with database := "⚠️  Connected but Error: " ++ e.take 50 }
  else
    .ok { testResponseInit with database := "⚠️  Available but not initialized" }

/-- The `test_database` handler (main.py lines 30-58): the body above,
with the outer `except Exception` downgrading any escaped exception into a
status string in the payload; the handler returns the payload plainly, so
FastAPI answers 200. -/
def test_database (avail : Bool) (dbName : Option String)
    (listColl : Except String (List String)) (urlSet : Bool) : HResult TestResponse :=
  match test_database_try avail dbName listColl urlSet with
  | .ok r => .ok r
  | .error e => .ok { testResponseInit with database := "❌ Error: " ++ (strExc e).take 50 }

/-! ## Schemas (schemas.py) -/

/-- The raw payload for a `Variant` before pydantic validation: each field
either present (with the declared type) or absent. -/
structure VariantInput where
  color : Option String
  color_hex : Option String
  size : Option String
  sku : Option String
  price : Option Int
  stock : Option Int

/-- A validated `Variant` (schemas.py lines 16-23). -/
structure Variant where
  color : String
  color_hex : Option String
  size : Option String
  sku : Option String
  price : Int
  stock : Int
deriving DecidableEq

/-- Pydantic validation of a `Variant` (schemas.py lines 16-23): `color`
and `price` required, `price >= 0`, `stock` defaults to 0 and must be
`>= 0`; the optional string fields default to `None`. -/
def Variant.validate (v : VariantInput) : Except String Variant :=
  match v.color with
  | none => .error "variant.color: field required"
  | some c =>
    match v.price with
    | none => .error "variant.price: field required"
    | some p =>
      if p < 0 then .error "variant.price: ensure this value is greater than or equal to 0"
      else
        let st := v.stock.getD 0
        if st < 0 then .error "variant.stock: ensure this value is greater than or equal to 0"
        else .ok { color := c, color_hex := v.color_hex, size := v.size, sku := v.sku,
                   price := p, stock := st }

/-- The raw payload for a `Product` before pydantic validation. -/
structure ProductInput where
  name : Option String
  description : Option String
  category : Option String
  base_price : Option Int
  images : Option (List String)
  variants : Option (List VariantInput)
  brand : Option String
  material : Option String
  color_family : Option (List String)

/-- A validated `Product` (schemas.py lines 26-39). -/
structure Product where
  name : String
  description : Option String
  category : String
  base_price : Option Int
  images : List String
  variants : List Variant
  brand : String
  material : Option String
  color_family : Option (List String)
deriving DecidableEq

/-- Validate each variant of the list in order, failing on the first
invalid one (pydantic reports all, but the presence of a failure is what
matters here). -/
def validateVariants : List VariantInput → Except String (List Variant)
  | [] => .ok []
  | v :: vs =>
    match Variant.validate v with
    | .error e => .error e
    | .ok w =>
      match validateVariants vs with
      | .error e => .error e
      | .ok ws => .ok (w :: ws)

/-- Pydantic validation of a `Product` (schemas.py lines 26-39): `name`
and `category` required, `base_price >= 0` when present, `images` and
`variants` default to `[]`, `brand` defaults to the fixed brand name. -/
def Product.validate (p : ProductInput) : Except String Product :=
  match p.name with
  | none => .error "name: field required"
  | some nm =>
    match p.category with
    | none => .error "category: field required"
    | some cat =>
      match p.base_price with
      | some bp =>
        if bp < 0 then .error "base_price: ensure this value is greater than or equal to 0"
        else validateRest nm cat (some bp)
      | none => validateRest nm cat none
where
  validateRest (nm cat : String) (bp : Option Int) : Except String Product :=
    match validateVariants (p.variants.getD []) with
    | .error e => .error e
    | .ok ws =>
      .ok { name := nm, description := p.description, category := cat, base_price := bp,
            images := p.images.getD [], variants := ws,
            brand := p.brand.getD "Мебелла", material := p.material,
            color_family := p.color_family }

/-! ## create_product -/

/-- A validated variant as it is stored. -/
def variantToDoc (v : Variant) : Doc :=
  [("color", .vStr v.color),
   ("color_hex", match v.color_hex with | some s => .vStr s | none => .vNull),
   ("size", match v.size with | some s => .vStr s | none => .vNull),
   ("sku", match v.sku with | some s => .vStr s | none => .vNull),
   ("price", .vInt v.price),
   ("stock", .vInt v.stock)]

/-- A validated product as it is stored. -/
def productToDoc (p : Product) : Doc :=
  [("name", .vStr p.name),
   ("description", match p.description with | some s => .vStr s | none => .vNull),
   ("category", .vStr p.category),
   ("base_price", match p.base_price with | some n => .vInt n | none => .vNull),
   ("images", .vList (p.images.map BVal.vStr)),
   ("variants", .vList (p.variants.map (fun v => .vDoc (variantToDoc v)))),
   ("brand", .vStr p.brand),
   ("material", match p.material with | some s => .vStr s | none => .vNull),
   ("color_family", match p.color_family with
                    | some l => .vList (l.map BVal.vStr)
                    | none => .vNull)]

/-- The `create_product` handler (main.py lines 61-68) together with the
framework step that precedes it: FastAPI parses and validates the body as
a `CreateProductRequest` (= `Product`) and answers 422 without entering
the handler if validation fails; the handler inserts the document and
returns the new id, mapping any store failure to HTTP 500. -/
def create_product (s : Store) (body : ProductInput) : HResult String × Store :=
  match Product.validate body with
  | .error e => (.httpError 422 e, s)
  | .ok p =>
    if s.available then
      let (oid, s2) := create_document s (productToDoc p)
      (.ok oid, s2)
    else
      (.httpError 500 "database not available", s)

/-! ## Seeder -/

/-- The stats dict returned by `seed_if_empty` (main.py lines 202-220):
`{"seeded": bool}` plus the optional `reason`, `count` and `inserted`
keys. -/
structure SeedResult where
  seeded : Bool
  reason : Option String
  count : Option Nat
  inserted : Option Nat
deriving DecidableEq

/-- Helper for transcribing a sample variant dict. -/
def sampleVariant (color hex size sku : String) (price : Int) (stock : Int) : BVal :=
  .vDoc [("color", .vStr color), ("color_hex", .vStr hex), ("size", .vStr size),
         ("sku", .vStr sku), ("price", .vInt price), ("stock", .vInt stock)]

/-- The fixed sample data of `_sample_products` (main.py lines 130-199):
four products with their variants, transcribed verbatim. -/
def sample_products : List Doc :=
  [ [("name", .vStr "Стул Nordica"),
     ("description", .vStr "Скандинавский стул с мягким сиденьем и деревянными ножками."),
     ("category", .vStr "стулья"),
     ("base_price", .vInt 4990),
     ("images", .vList
       [.vStr "https://images.unsplash.com/photo-1555041469-a586c61ea9bc?w=1200&q=80&auto=format&fit=crop",
        .vStr "https://images.unsplash.com/photo-1503602642458-232111445657?w=1200&q=80&auto=format&fit=crop"]),
     ("material", .vStr "Массив бука, ткань"),
     ("brand", .vStr "Мебелла"),
     ("color_family", .vList [.vStr "бежевый", .vStr "серый", .vStr "черный"]),
     ("variants", .vList
       [sampleVariant "бежевый" "#D8C3A5" "стандарт" "CH-NOR-BE-STD" 4990 25,
        sampleVariant "серый" "#A0A0A0" "стандарт" "CH-NOR-GR-STD" 4990 18,
        sampleVariant "черный" "#000000" "стандарт" "CH-NOR-BK-STD" 5290 12])],
    [("name", .vStr "Шкаф Alto 3D"),
     ("description", .vStr "Трехдверный шкаф с отделениями для одежды и белья, спокойный минимализм."),
     ("category", .vStr "шкафы"),
     ("base_price", .vInt 24990),
     ("images", .vList
       [.vStr "https://images.unsplash.com/photo-1598300183876-2b0b1f5b7c47?w=1200&q=80&auto=format&fit=crop"]),
     ("material", .vStr "ЛДСП, МДФ"),
     ("brand", .vStr "Мебелла"),
     ("color_family", .vList [.vStr "белый", .vStr "дуб"]),
     ("variants", .vList
       [sampleVariant "белый" "#FFFFFF" "200x120x60" "WR-AL3-WH-200" 24990 8,
        sampleVariant "дуб" "#C5A572" "220x140x60" "WR-AL3-OK-220" 28990 5])],
    [("name", .vStr "Тумба Nova"),
     ("description", .vStr "Прикроватная тумба с плавным закрыванием, скрытые ручки."),
     ("category", .vStr "тумбы"),
     ("base_price", .vInt 6990),
     ("images", .vList
       [.vStr "https://images.unsplash.com/photo-1549187774-b4e9b0445b06?w=1200&q=80&auto=format&fit=crop"]),
     ("material", .vStr "МДФ"),
     ("brand", .vStr "Мебелла"),
     ("color_family", .vList [.vStr "белый", .vStr "графит"]),
     ("variants", .vList
       [sampleVariant "белый" "#FFFFFF" "50x40x35" "NS-NOV-WH-50" 6990 20,
        sampleVariant "графит" "#3B3B3B" "50x40x35" "NS-NOV-GR-50" 7290 14])],
    [("name", .vStr "Стол Loft+"),
     ("description", .vStr "Обеденный стол в стиле лофт, металлическое основание, столешница из дуба."),
     ("category", .vStr "столы"),
     ("base_price", .vInt 19990),
     ("images", .vList
       [.vStr "https://images.unsplash.com/photo-1493666438817-866a91353ca9?w=1200&q=80&auto=format&fit=crop"]),
     ("material", .vStr "Дуб, металл"),
     ("brand", .vStr "Мебелла"),
     ("color_family", .vList [.vStr "дуб натуральный", .vStr "венге"]),
     ("variants", .vList
       [sampleVariant "дуб натуральный" "#C8A97E" "120x70" "TB-LOF-NA-120" 19990 10,
        sampleVariant "дуб натуральный" "#C8A97E" "160x80" "TB-LOF-NA-160" 23990 7,
        sampleVariant "венге" "#3E2B23" "160x80" "TB-LOF-WE-160" 24990 4])] ]

/-- The sample documents the store accepts during a seeding run: sample
`i` is kept exactly when the store accepts insert attempt `i`.  This is
the specification the insert loop is proved against. -/
def seededDocs (insertOk : Nat → Bool) : List Doc → Nat → List Doc
  | [], _ => []
  | p :: ps, i => (if insertOk i then [p] else []) ++ seededDocs insertOk ps (i + 1)

/-- The insert loop of `seed_if_empty` (main.py lines 211-217): each
sample is attempted in order; `insertOk i` tells whether the store accepts
the `i`-th attempt (the loop's `except Exception: continue` swallows a
failure and moves on).  Returns the number of successful inserts and the
store contents after the loop. -/
def seedLoop (insertOk : Nat → Bool) : List Doc → Nat → List Doc → Nat × List Doc
  | [], _, docs => (0, docs)
  | p :: ps, i, docs =>
    if insertOk i then
      let r := seedLoop insertOk ps (i + 1) (docs ++ [p])
      (r.1 + 1, r.2)
    else
      seedLoop insertOk ps (i + 1) docs

/-- `seed_if_empty` (main.py lines 202-220): skip when `db` is `None`;
otherwise count the product documents (a failing count is caught by the
outer `except` and reported as a non-seeded result); skip when the
collection is non-empty; otherwise insert the samples one by one,
swallowing individual failures.  `insertOk` models the store's acceptance
of each insert. -/
def seed_if_empty (s : Store) (insertOk : Nat → Bool) : SeedResult × Store :=
  if !s.available then
    ({ seeded := false, reason := some "database not available", count := none, inserted := none }, s)
  else if s.countFails then
    ({ seeded := false, reason := some "store count error", count := none, inserted := none }, s)
  else if s.docs.length > 0 then
    ({ seeded := false, reason := some "already has data", count := some s.docs.length,
       inserted := none }, s)
  else
    let r := seedLoop insertOk sample_products 0 s.docs
    ({ seeded := true, reason := none, count := none, inserted := some r.1 },
     { s with docs := r.2 })

/-- The `seed_endpoint` handler (main.py lines 223-231): an
`already has data` skip is returned as a 200 success; every other
non-seeded result raises `HTTPException(500)`; a seeded result is a 200
success. -/
def seed_endpoint (s : Store) (insertOk : Nat → Bool) : HResult SeedResult × Store :=
  let r := seed_if_empty s insertOk
  if r.1.seeded == false && r.1.reason == some "already has data" then
    (.ok r.1, r.2)
  else if r.1.seeded == false then
    (.httpError 500 "seed failed", r.2)
  else
    (.ok r.1, r.2)

/-! ## Dictionary lemmas -/

theorem dictGet_nil (k : String) : dictGet [] k = none := rfl

theorem dictGet_cons (k0 : String) (v0 : BVal) (d : Doc) (k : String) :
    dictGet ((k0, v0) :: d) k = if k0 = k then some v0 else dictGet d k := by
  by_cases h : k0 = k <;> simp [dictGet, List.find?_cons, h]

theorem dictRemove_cons (k0 : String) (v0 : BVal) (d : Doc) (k : String) :
    dictRemove ((k0, v0) :: d) k =
      if k0 = k then dictRemove d k else (k0, v0) :: dictRemove d k := by
  by_cases h : k0 = k <;> simp [dictRemove, List.filter_cons, h]

theorem dictGet_dictRemove (d : Doc) (k k2 : String) :
    dictGet (dictRemove d k) k2 = if k = k2 then none else dictGet d k2 := by
  induction d with
  | nil => by_cases h : k = k2 <;> simp [dictRemove, dictGet, h]
  | cons p d ih =>
    obtain ⟨k0, v0⟩ := p
    rw [dictRemove_cons]
    by_cases h0 : k0 = k
    · rw [if_pos h0, ih, dictGet_cons]
      by_cases h2 : k = k2
      · simp [h2]
      · rw [if_neg h2, if_neg h2, if_neg (by rw [h0]; exact h2)]
    · rw [if_neg h0, dictGet_cons, dictGet_cons]
      by_cases h2 : k0 = k2
      · rw [if_pos h2, if_pos h2, if_neg (by rw [← h2]; exact fun hh => h0 hh.symm)]
      · rw [if_neg h2, if_neg h2, ih]

theorem dictGet_append (d1 d2 : Doc) (k : String) :
    dictGet (d1 ++ d2) k =
      match dictGet d1 k with
      | some v => some v
      | none => dictGet d2 k := by
  induction d1 with
  | nil => simp [dictGet]
  | cons p d ih =>
    obtain ⟨k0, v0⟩ := p
    rw [List.cons_append, dictGet_cons, dictGet_cons]
    by_cases h : k0 = k
    · simp [h]
    · simp only [if_neg h]; exact ih

theorem dictGet_dictSet (d : Doc) (k : String) (v : BVal) (k2 : String) :
    dictGet (dictSet d k v) k2 = if k = k2 then some v else dictGet d k2 := by
  rw [dictSet, dictGet_append, dictGet_dictRemove]
  by_cases h : k = k2
  · simp [h, dictGet_cons]
  · cases hd : dictGet d k2 <;> simp [h, hd, dictGet_cons, dictGet]

theorem dictGet_coerceStr_self (d : Doc) (k : String) :
    dictGet (coerceStr d k) k = (dictGet d k).map (fun v => .vStr (pyStr v)) := by
  cases h : dictGet d k <;> simp [coerceStr, h, dictGet_dictSet]

theorem dictGet_coerceStr_ne (d : Doc) (k k2 : String) (h : k ≠ k2) :
    dictGet (coerceStr d k) k2 = dictGet d k2 := by
  cases hd : dictGet d k <;> simp [coerceStr, hd, dictGet_dictSet, h]

/-! ## C3: seeding skips a non-empty collection -/

/-- C3: for every store state with a successful positive document count,
the seeder performs no inserts (the store is returned unchanged) and
reports a skip with reason "already has data" and the observed count —
so a second seed invocation in succession never inserts a second batch. -/
theorem seed_skips_nonempty (s : Store) (insertOk : Nat → Bool)
    (hA : s.available = true) (hC : s.countFails = false) (hN : 0 < s.docs.length) :
    seed_if_empty s insertOk =
      ({ seeded := false, reason := some "already has data",
         count := some s.docs.length, inserted := none }, s) := by
  simp [seed_if_empty, hA, hC, hN]

/-- Witness for C3: a store holding one document is skipped unchanged. -/
theorem seed_skips_nonempty_witness :
    seed_if_empty ⟨true, [[("name", .vStr "Стол X")]], false⟩ (fun _ => true) =
      ({ seeded := false, reason := some "already has data",
         count := some 1, inserted := none },
       ⟨true, [[("name", .vStr "Стол X")]], false⟩) := by
  exact seed_skips_nonempty ⟨true, [[("name", .vStr "Стол X")]], false⟩ (fun _ => true)
    rfl rfl (by decide)

/-! ## C4: unavailable store and the seed endpoint -/

/-- Counterexample for C4: with the store unavailable the seeder result is
the claimed skip, but the endpoint answers 500 even though seeding was
never attempted — the claim's "500 only when seeding was attempted and
failed" does not hold. -/
theorem seed_endpoint_unavailable_counterexample :
    (seed_if_empty ⟨false, [], false⟩ (fun _ => true)).1 =
      { seeded := false, reason := some "database not available",
        count := none, inserted := none } ∧
    (seed_endpoint ⟨false, [], false⟩ (fun _ => true)).1.status = 500 := by
  constructor <;> rfl

/-- C4 (amended): with the store unavailable the seeder returns a skip
with reason "database not available" without touching the store, and the
endpoint treats that skip as an error, answering 500; 200 is reserved for
a successful seed or an "already has data" skip. -/
theorem seed_endpoint_unavailable (s : Store) (insertOk : Nat → Bool)
    (h : s.available = false) :
    (seed_if_empty s insertOk).1 =
      { seeded := false, reason := some "database not available",
        count := none, inserted := none } ∧
    (seed_if_empty s insertOk).2 = s ∧
    (seed_endpoint s insertOk).1.status = 500 := by
  refine ⟨by simp [seed_if_empty, h], by simp [seed_if_empty, h], ?_⟩
  simp [seed_endpoint, seed_if_empty, h, HResult.status]

/-- Witness for C4's amended theorem at a concrete unavailable store. -/
theorem seed_endpoint_unavailable_witness :
    (seed_if_empty ⟨false, [], true⟩ (fun _ => false)).1 =
      { seeded := false, reason := some "database not available",
        count := none, inserted := none } ∧
    (seed_if_empty ⟨false, [], true⟩ (fun _ => false)).2 = ⟨false, [], true⟩ ∧
    (seed_endpoint ⟨false, [], true⟩ (fun _ => false)).1.status = 500 :=
  seed_endpoint_unavailable ⟨false, [], true⟩ (fun _ => false) rfl

/-! ## C5: the limit query parameter -/

/-- C5: `limit` defaults to 50 when omitted, every integer in [1, 200] is
accepted unchanged, and every value outside the range — in particular 0
and 201 — is rejected as a request validation error, not clamped. -/
theorem limit_validation :
    validate_limit none = .ok 50 ∧
    (∀ n : Int, 1 ≤ n → n ≤ 200 → validate_limit (some n) = .ok n.toNat) ∧
    (∀ n : Int, n < 1 ∨ 200 < n → ∃ msg, validate_limit (some n) = .error msg) ∧
    (∃ m0, validate_limit (some 0) = .error m0) ∧
    (∃ m1, validate_limit (some 201) = .error m1) := by
  refine ⟨rfl, ?_, ?_, ?_, ?_⟩
  · intro n h1 h2
    simp [validate_limit, h1, h2]
  · intro n h
    refine ⟨"limit: value out of range [1, 200]", ?_⟩
    have : ¬(1 ≤ n ∧ n ≤ 200) := by omega
    simp [validate_limit, this]
  · exact ⟨"limit: value out of range [1, 200]", rfl⟩
  · exact ⟨"limit: value out of range [1, 200]", rfl⟩

/-- Witness for C5: 50 by default, 1 and 200 accepted, 0 and 201 refused. -/
theorem limit_validation_witness :
    validate_limit none = .ok 50 ∧
    validate_limit (some 1) = .ok 1 ∧
    validate_limit (some 200) = .ok 200 ∧
    (∃ m0, validate_limit (some 0) = .error m0) ∧
    (∃ m1, validate_limit (some 201) = .error m1) := by
  refine ⟨limit_validation.1, ?_, ?_, limit_validation.2.2.2.1, limit_validation.2.2.2.2⟩
  · exact limit_validation.2.1 1 (by decide) (by decide)
  · exact limit_validation.2.1 200 (by decide) (by decide)

/-! ## C10: empty-string query parameters are treated as absent -/

/-- C10: an empty `category` (or `search`) string fails Python's
truthiness test, so the built filter carries no corresponding condition
and `list_products` behaves exactly as with the parameter omitted. -/
theorem empty_string_params_ignored (sch cat : Option String) (st : Store)
    (lim : Option Int) :
    buildFilter (some "") sch = buildFilter none sch ∧
    buildFilter cat (some "") = buildFilter cat none ∧
    list_products st (some "") sch lim = list_products st none sch lim ∧
    list_products st cat (some "") lim = list_products st cat none lim := by
  refine ⟨rfl, rfl, ?_, ?_⟩ <;> rfl

/-- Witness for C10: empty-string parameters at a concrete store. -/
theorem empty_string_params_ignored_witness :
    buildFilter (some "") none = buildFilter none none ∧
    list_products ⟨true, [], false⟩ (some "") none none =
      list_products ⟨true, [], false⟩ none none none := by
  have h := empty_string_params_ignored none none ⟨true, [], false⟩ none
  exact ⟨h.1, h.2.2.1⟩

/-! ## C1: get-product status codes -/

/-- C1 (code bug): `get_product` raises its `HTTPException(404)` inside
the `try` block, so the blanket `except Exception` converts it into a 500
whose detail is the stringified 404 — a well-formed id with no matching
document answers 500, not 404 (the malformed-id half of the claim, 500,
does hold). -/
theorem get_product_missing_is_500 :
    get_product ⟨true, [], false⟩ "0123456789abcdef01234567" =
      .httpError 500 "404: Product not found" ∧
    (get_product ⟨true, [], false⟩ "0123456789abcdef01234567").status = 500 ∧
    get_product ⟨true, [], false⟩ "not-an-objectid" =
      .httpError 500 "InvalidId: not-an-objectid is not a valid ObjectId" := by
  exact ⟨rfl, rfl, rfl⟩

/-! ## C7: seeding an empty collection -/

theorem seedLoop_eq (insertOk : Nat → Bool) :
    ∀ (ps : List Doc) (i : Nat) (docs : List Doc),
      seedLoop insertOk ps i docs =
        ((seededDocs insertOk ps i).length, docs ++ seededDocs insertOk ps i) := by
  intro ps
  induction ps with
  | nil => intro i docs; simp [seedLoop, seededDocs]
  | cons p ps ih =>
    intro i docs
    by_cases h : insertOk i
    · simp [seedLoop, seededDocs, h, ih]
    · simp [seedLoop, seededDocs, h, ih]

theorem seededDocs_mem (insertOk : Nat → Bool) :
    ∀ (ps : List Doc) (i j : Nat) (p : Doc),
      ps[j]? = some p → insertOk (i + j) = true →
      p ∈ seededDocs insertOk ps i := by
  intro ps
  induction ps with
  | nil => intro i j p h; simp at h
  | cons q ps ih =>
    intro i j p hget hok
    cases j with
    | zero =>
      rw [List.getElem?_cons_zero] at hget
      injection hget with hq
      subst hq
      rw [Nat.add_zero] at hok
      simp [seededDocs, hok]
    | succ j =>
      rw [List.getElem?_cons_succ] at hget
      simp only [seededDocs, List.mem_append]
      right
      exact ih (i + 1) j p hget (by rw [show i + 1 + j = i + (j + 1) by omega]; exact hok)

/-- C7: on an available, empty store the seeder attempts each of the four
fixed sample products independently — every sample whose insert the store
accepts is persisted, regardless of failures on the others — and reports
`seeded` with the count of successfully inserted samples (the store ends
up holding exactly those samples). -/
theorem seed_on_empty_independent (s : Store) (insertOk : Nat → Bool)
    (hA : s.available = true) (hC : s.countFails = false) (hE : s.docs = []) :
    seed_if_empty s insertOk =
      ({ seeded := true, reason := none, count := none,
         inserted := some (seededDocs insertOk sample_products 0).length },
       { s with docs := seededDocs insertOk sample_products 0 }) ∧
    (∀ (j : Nat) (p : Doc), sample_products[j]? = some p → insertOk j = true →
       p ∈ (seed_if_empty s insertOk).2.docs) ∧
    sample_products.length = 4 := by
  have hmain : seed_if_empty s insertOk =
      ({ seeded := true, reason := none, count := none,
         inserted := some (seededDocs insertOk sample_products 0).length },
       { s with docs := seededDocs insertOk sample_products 0 }) := by
    simp [seed_if_empty, hA, hC, hE, seedLoop_eq]
  refine ⟨hmain, ?_, rfl⟩
  intro j p hj hok
  rw [hmain]
  exact seededDocs_mem insertOk sample_products 0 j p hj (by simpa using hok)

/-- Witness for C7: with the second insert failing and the rest
succeeding, three samples are inserted and reported. -/
theorem seed_on_empty_independent_witness :
    (seed_if_empty ⟨true, [], false⟩ (fun i => i != 1)).1.inserted = some 3 ∧
    (seed_if_empty ⟨true, [], false⟩ (fun i => i != 1)).2.docs.length = 3 := by
  have h := seed_on_empty_independent ⟨true, [], false⟩ (fun i => i != 1) rfl rfl rfl
  rw [h.1]
  exact ⟨rfl, rfl⟩

/-! ## C9: the diagnostics endpoint never fails -/

/-- C9: for every store state — unavailable `db`, failing collection
listing, any environment — `test_database` returns a 200 payload; a
collection-listing failure surfaces only as a status string inside the
payload, and an unavailable store as its own status string. -/
theorem test_database_always_ok (avail : Bool) (dbName : Option String)
    (listColl : Except String (List String)) (urlSet : Bool) :
    (test_database avail dbName listColl urlSet).status = 200 ∧
    (∀ e, listColl = .error e → avail = true →
       test_database avail dbName listColl urlSet =
         .ok { backend := "✅ Running",
               database := "⚠️  Connected but Error: " ++ e.take 50,
               database_url := some (if urlSet then "✅ Set" else "❌ Not Set"),
               database_name := some (dbName.getD "✅ Connected"),
               connection_status := "Connected",
               collections := [] }) ∧
    (avail = false →
       test_database avail dbName listColl urlSet =
         .ok { backend := "✅ Running",
               database := "⚠️  Available but not initialized",
               database_url := none,
               database_name := none,
               connection_status := "Not Connected",
               collections := [] }) := by
  refine ⟨?_, ?_, ?_⟩
  · cases avail <;> cases listColl <;> rfl
  · intro e he ha
    subst he; subst ha
    rfl
  · intro ha
    subst ha
    cases listColl <;> rfl

/-- Witness for C9: a connected store whose collection listing raises
still yields a 200 payload carrying the error as a status string. -/
theorem test_database_always_ok_witness :
    (test_database true none (.error "boom") false).status = 200 ∧
    test_database true none (.error "boom") false =
      .ok { backend := "✅ Running",
            database := "⚠️  Connected but Error: boom",
            database_url := some "❌ Not Set",
            database_name := some "✅ Connected",
            connection_status := "Connected",
            collections := [] } := by
  have h := test_database_always_ok true none (.error "boom") false
  refine ⟨h.1, ?_⟩
  have h2 := h.2.1 "boom" rfl rfl
  rw [h2]
  rfl

/-! ## C6: schema validation of variants -/

theorem variant_validate_error_of_neg (v : VariantInput)
    (h : (∃ p, v.price = some p ∧ p < 0) ∨ (∃ n, v.stock = some n ∧ n < 0)) :
    ∃ msg, Variant.validate v = .error msg := by
  rcases hc : v.color with _ | c
  · exact ⟨"variant.color: field required", by simp [Variant.validate, hc]⟩
  · rcases hp : v.price with _ | p
    · exact ⟨"variant.price: field required", by simp [Variant.validate, hc, hp]⟩
    · by_cases hneg : p < 0
      · exact ⟨"variant.price: ensure this value is greater than or equal to 0",
          by simp [Variant.validate, hc, hp, hneg]⟩
      · rcases h with ⟨p2, hp2, hp2n⟩ | ⟨n, hn, hnn⟩
        · rw [hp] at hp2
          injection hp2 with he
          subst he
          exact absurd hp2n hneg
        · exact ⟨"variant.stock: ensure this value is greater than or equal to 0",
            by simp [Variant.validate, hc, hp, hneg, hn, hnn]⟩

theorem validateVariants_error_of_mem :
    ∀ (vs : List VariantInput) (v : VariantInput), v ∈ vs →
      (∃ m, Variant.validate v = .error m) →
      ∃ msg, validateVariants vs = .error msg := by
  intro vs
  induction vs with
  | nil => intro v hv; simp at hv
  | cons w ws ih =>
    intro v hv hm
    rcases List.mem_cons.mp hv with he | ht
    · subst he
      rcases hm with ⟨m, hme⟩
      exact ⟨m, by simp [validateVariants, hme]⟩
    · cases hw : Variant.validate w with
      | error e => exact ⟨e, by simp [validateVariants, hw]⟩
      | ok w2 =>
        rcases ih v ht hm with ⟨m, hm2⟩
        exact ⟨m, by simp [validateVariants, hw, hm2]⟩

theorem product_validate_error_of_variants (body : ProductInput) (vs : List VariantInput)
    (hvs : body.variants = some vs) (hm : ∃ m, validateVariants vs = .error m) :
    ∃ msg, Product.validate body = .error msg := by
  rcases hm with ⟨m, hme⟩
  rcases hn : body.name with _ | nm
  · exact ⟨"name: field required", by simp [Product.validate, hn]⟩
  · rcases hcat : body.category with _ | cat
    · exact ⟨"category: field required", by simp [Product.validate, hn, hcat]⟩
    · rcases hbp : body.base_price with _ | bp
      · exact ⟨m, by simp [Product.validate, Product.validate.validateRest, hn, hcat, hbp,
          hvs, hme]⟩
      · by_cases hbn : bp < 0
        · exact ⟨"base_price: ensure this value is greater than or equal to 0",
            by simp [Product.validate, hn, hcat, hbp, hbn]⟩
        · exact ⟨m, by simp [Product.validate, Product.validate.validateRest, hn, hcat, hbp,
            hbn, hvs, hme]⟩

/-- C6: a variant payload carrying a negative price or a negative stock
fails pydantic validation; a product body containing such a variant is
answered with a request validation error and the store is left untouched
(no write precedes validation); a variant payload without a stock field
validates with stock defaulted to 0. -/
theorem negative_variant_rejected :
    (∀ v : VariantInput,
       (∃ p, v.price = some p ∧ p < 0) ∨ (∃ n, v.stock = some n ∧ n < 0) →
       ∃ msg, Variant.validate v = .error msg) ∧
    (∀ (s : Store) (body : ProductInput) (vs : List VariantInput) (v : VariantInput),
       body.variants = some vs → v ∈ vs →
       (∃ p, v.price = some p ∧ p < 0) ∨ (∃ n, v.stock = some n ∧ n < 0) →
       ∃ msg, create_product s body = (.httpError 422 msg, s)) ∧
    (∀ (v : VariantInput) (c : String) (p : Int),
       v.color = some c → v.price = some p → 0 ≤ p → v.stock = none →
       Variant.validate v = .ok { color := c, color_hex := v.color_hex, size := v.size,
                                  sku := v.sku, price := p, stock := 0 }) := by
  refine ⟨variant_validate_error_of_neg, ?_, ?_⟩
  · intro s body vs v hvs hmem hneg
    have hv := variant_validate_error_of_neg v hneg
    have hl := validateVariants_error_of_mem vs v hmem hv
    rcases product_validate_error_of_variants body vs hvs hl with ⟨msg, hmsg⟩
    exact ⟨msg, by simp [create_product, hmsg]⟩
  · intro v c p hc hp hp0 hs
    have hneg : ¬ p < 0 := by omega
    simp [Variant.validate, hc, hp, hs, hneg]

/-- Witness for C6: a negative price is refused, a product holding a
negative-stock variant is refused with the store unchanged, and an absent
stock defaults to 0. -/
theorem negative_variant_rejected_witness :
    (∃ msg, Variant.validate ⟨some "черный", none, none, none, some (-1), none⟩ =
       .error msg) ∧
    (∃ msg, create_product ⟨true, [], false⟩
       ⟨some "Стол X", none, some "столы", none, none,
        some [⟨some "черный", none, none, none, some 1000, some (-5)⟩],
        none, none, none⟩ =
       (.httpError 422 msg, ⟨true, [], false⟩)) ∧
    Variant.validate ⟨some "черный", none, none, none, some 1000, none⟩ =
      .ok { color := "черный", color_hex := none, size := none, sku := none,
            price := 1000, stock := 0 } := by
  refine ⟨negative_variant_rejected.1 _ (Or.inl ⟨-1, rfl, by decide⟩), ?_, ?_⟩
  · exact negative_variant_rejected.2.1 ⟨true, [], false⟩ _ _
      ⟨some "черный", none, none, none, some 1000, some (-5)⟩ rfl (by simp)
      (Or.inr ⟨-5, rfl, by decide⟩)
  · exact negative_variant_rejected.2.2 _ "черный" 1000 rfl rfl (by decide) rfl

/-! ## C8: serialization hides the native identifier -/

theorem serialize_oid (d : Doc) (h : String) (hid : dictGet d "_id" = some (.vOid h)) :
    dictGet (serialize d) "id" = some (.vStr h) ∧
    dictGet (serialize d) "_id" = none ∧
    (∀ v, dictGet d "created_at" = some v →
       dictGet (serialize d) "created_at" = some (.vStr (pyStr v))) ∧
    (∀ v, dictGet d "updated_at" = some v →
       dictGet (serialize d) "updated_at" = some (.vStr (pyStr v))) ∧
    serializeGet d = .ok (serialize d) := by
  have hs : serialize d =
      coerceStr (coerceStr (dictSet (dictRemove d "_id") "id" (.vStr h)) "created_at")
        "updated_at" := by
    simp [serialize, hid, truthy, pyStr]
  refine ⟨?_, ?_, ?_, ?_, ?_⟩
  · rw [hs, dictGet_coerceStr_ne _ _ _ (by decide), dictGet_coerceStr_ne _ _ _ (by decide),
      dictGet_dictSet]
    simp
  · rw [hs, dictGet_coerceStr_ne _ _ _ (by decide), dictGet_coerceStr_ne _ _ _ (by decide),
      dictGet_dictSet, if_neg (by decide), dictGet_dictRemove, if_pos rfl]
  · intro v hv
    rw [hs, dictGet_coerceStr_ne _ _ _ (by decide), dictGet_coerceStr_self,
      dictGet_dictSet, if_neg (by decide), dictGet_dictRemove, if_neg (by decide), hv]
    rfl
  · intro v hv
    rw [hs, dictGet_coerceStr_self, dictGet_coerceStr_ne _ _ _ (by decide),
      dictGet_dictSet, if_neg (by decide), dictGet_dictRemove, if_neg (by decide), hv]
    rfl
  · rw [hs]
    simp [serializeGet, hid, pyStr]

/-- C8: a stored document carries its native identifier as an ObjectId
under `_id`; after serialization — both the `serialize` closure of
`list_products` and the inline serialization of `get_product` — the
output exposes it only as a string under `id`, the `_id` field is gone
and any `created_at`/`updated_at` values are coerced to strings. -/
theorem serialized_docs_hide_native_id :
    (∀ (d : Doc) (h : String), dictGet d "_id" = some (.vOid h) →
       dictGet (serialize d) "id" = some (.vStr h) ∧
       dictGet (serialize d) "_id" = none ∧
       (∀ v, dictGet d "created_at" = some v →
          dictGet (serialize d) "created_at" = some (.vStr (pyStr v))) ∧
       (∀ v, dictGet d "updated_at" = some v →
          dictGet (serialize d) "updated_at" = some (.vStr (pyStr v)))) ∧
    (∀ (s : Store) (cat sch : Option String) (lim : Option Int) (out : List Doc),
       (∀ d ∈ s.docs, ∃ h, dictGet d "_id" = some (.vOid h)) →
       list_products s cat sch lim = .ok out →
       ∀ d2 ∈ out, dictGet d2 "_id" = none ∧ ∃ h, dictGet d2 "id" = some (.vStr h)) ∧
    (∀ (s : Store) (pid : String) (d2 : Doc),
       get_product s pid = .ok d2 →
       dictGet d2 "_id" = none ∧ ∃ h, dictGet d2 "id" = some (.vStr h)) := by
  refine ⟨?_, ?_, ?_⟩
  · intro d h hid
    have hp := serialize_oid d h hid
    exact ⟨hp.1, hp.2.1, hp.2.2.1, hp.2.2.2.1⟩
  · intro s cat sch lim out hdocs hok
    unfold list_products at hok
    split at hok
    · simp at hok
    · by_cases hav : s.available
      · rw [if_pos hav] at hok
        injection hok with hout
        subst hout
        intro d2 hd2
        rcases List.mem_map.mp hd2 with ⟨d, hdin, hser⟩
        have hd : d ∈ s.docs :=
          (List.mem_filter.mp (List.take_subset _ _ (by simpa [get_documents] using hdin))).1
        rcases hdocs d hd with ⟨h, hid⟩
        have hp := serialize_oid d h hid
        subst hser
        exact ⟨hp.2.1, h, hp.1⟩
      · rw [if_neg hav] at hok
        simp at hok
  · intro s pid d2 hok
    unfold get_product at hok
    cases htry : get_product_try s pid with
    | error e => rw [htry] at hok; simp at hok
    | ok d3 =>
      rw [htry] at hok
      injection hok with hd32
      subst hd32
      unfold get_product_try at htry
      by_cases hav : s.available
      · rw [if_neg (by simp [hav])] at htry
        by_cases hvd : isValidObjectId pid
        · rw [if_neg (by simp [hvd])] at htry
          split at htry
          · simp at htry
          · rename_i d hfind
            have hoid : docHasOid d pid.toLower = true :=
              @List.find?_some _ (fun d0 => docHasOid d0 pid.toLower) d s.docs hfind
            unfold docHasOid at hoid
            cases hid : dictGet d "_id" with
            | none => rw [hid] at hoid; simp at hoid
            | some v =>
              rw [hid] at hoid
              cases v with
              | vOid x =>
                have hp := serialize_oid d x hid
                rw [hp.2.2.2.2] at htry
                injection htry with hser
                subst hser
                exact ⟨hp.2.1, x, hp.1⟩
              | vStr t => simp at hoid
              | vInt n => simp at hoid
              | vDate n => simp at hoid
              | vNull => simp at hoid
              | vList l => simp at hoid
              | vDoc l => simp at hoid
        · rw [if_pos (by simp [hvd])] at htry; simp at htry
      · rw [if_pos (by simp [hav])] at htry; simp at htry

/-- Witness for C8: a concrete stored document with an ObjectId and a
creation timestamp serializes to a string id, no `_id`, and a string
timestamp; a one-document store behaves accordingly through both
endpoints. -/
theorem serialized_docs_hide_native_id_witness :
    dictGet (serialize [("_id", .vOid "65a1b2c3d4e5f6a7b8c9d0e1"),
                        ("name", .vStr "Стул Nordica"),
                        ("created_at", .vDate 1700000000)]) "id" =
      some (.vStr "65a1b2c3d4e5f6a7b8c9d0e1") ∧
    dictGet (serialize [("_id", .vOid "65a1b2c3d4e5f6a7b8c9d0e1"),
                        ("name", .vStr "Стул Nordica"),
                        ("created_at", .vDate 1700000000)]) "_id" = none ∧
    dictGet (serialize [("_id", .vOid "65a1b2c3d4e5f6a7b8c9d0e1"),
                        ("name", .vStr "Стул Nordica"),
                        ("created_at", .vDate 1700000000)]) "created_at" =
      some (.vStr "1700000000") := by
  have hp := serialized_docs_hide_native_id.1
    [("_id", .vOid "65a1b2c3d4e5f6a7b8c9d0e1"), ("name", .vStr "Стул Nordica"),
     ("created_at", .vDate 1700000000)] "65a1b2c3d4e5f6a7b8c9d0e1" rfl
  exact ⟨hp.1, hp.2.1, hp.2.2.1 (.vDate 1700000000) rfl⟩

/-! ## C2: the search filter is a regex, not a plain substring test -/

theorem matchHere_literal :
    ∀ (pat t : List Char), (∀ c ∈ pat, c ≠ '.') → matchHere pat t = chStarts pat t := by
  intro pat
  induction pat with
  | nil => intro t h; cases t <;> rfl
  | cons p ps ih =>
    intro t h
    cases t with
    | nil => rfl
    | cons c cs =>
      have hp : p ≠ '.' := h p (List.mem_cons_self _ _)
      have hps : ∀ c2 ∈ ps, c2 ≠ '.' := fun c2 hc2 => h c2 (List.mem_cons_of_mem _ hc2)
      simp only [matchHere, chStarts, charMatch, ih cs hps]
      rw [show (p == '.') = false from beq_eq_false_iff_ne.mpr hp]
      simp

theorem regexFind_literal (pat : List Char) (hp : ∀ c ∈ pat, c ≠ '.') :
    ∀ t, regexFind pat t = chSub pat t := by
  intro t
  induction t with
  | nil => simp [regexFind, chSub, matchHere_literal pat [] hp]
  | cons c cs ih => simp [regexFind, chSub, matchHere_literal pat (c :: cs) hp, ih]

theorem regexFindCI_eq_containsCI (s t : String) (hs : isLiteralPattern s = true) :
    regexFindCI s t = containsCI t s := by
  unfold regexFindCI containsCI
  apply regexFind_literal
  intro c hc
  intro hd
  have hm := (List.all_eq_true.mp hs) c hc
  rw [hd] at hm
  exact absurd hm (by decide)

theorem fieldRegexI_eq_contains (d : Doc) (k s : String) (hs : isLiteralPattern s = true) :
    fieldRegexI d k s = fieldContainsCI d k s := by
  unfold fieldRegexI fieldContainsCI
  cases hv : dictGet d k with
  | none => rfl
  | some v => cases v <;> simp [regexFindCI_eq_containsCI _ _ hs]

/-- C2 counterexample: the search text "." — which no stored name below
contains as a substring — matches the built filter against a document
named "abc", because the filter passes the search text to the store as a
regular expression (`$regex`), where `.` matches any character.  The
claim's "contain the search text as a substring" reading is therefore
false as stated. -/
theorem search_filter_counterexample :
    matchesFilter (buildFilter none (some ".")) [("name", .vStr "abc")] = true ∧
    searchSpecCond [("name", .vStr "abc")] "." = false := by
  constructor <;> rfl

/-- C2 (amended): the built filter requires exact equality on `category`
when a category is given and, when search text is given, a
case-insensitive REGULAR-EXPRESSION match of the search text against
`name` OR `description`; both conditions combine with AND and the empty
filter matches everything.  For search text free of regex metacharacters
the regex condition coincides with case-insensitive substring
containment, which is the reading the spec states. -/
theorem filter_construction_semantics (c s : String) (d : Doc)
    (hc : c ≠ "") (hs : s ≠ "") (hlit : isLiteralPattern s = true) :
    matchesFilter (buildFilter (some c) (some s)) d =
      (fieldEq d "category" c && searchSpecCond d s) ∧
    matchesFilter (buildFilter (some c) none) d = fieldEq d "category" c ∧
    matchesFilter (buildFilter none (some s)) d = searchSpecCond d s ∧
    matchesFilter (buildFilter none none) d = true := by
  have hce : c.isEmpty = false := by
    rw [Bool.eq_false_iff]
    intro he
    exact hc ((String.isEmpty_iff c).mp he)
  have hse : s.isEmpty = false := by
    rw [Bool.eq_false_iff]
    intro he
    exact hs ((String.isEmpty_iff s).mp he)
  refine ⟨?_, ?_, ?_, rfl⟩
  · simp [matchesFilter, buildFilter, pyTruthyStr, hce, hse, searchSpecCond,
      fieldRegexI_eq_contains d "name" s hlit, fieldRegexI_eq_contains d "description" s hlit]
  · simp [matchesFilter, buildFilter, pyTruthyStr, hce]
  · simp [matchesFilter, buildFilter, pyTruthyStr, hse, searchSpecCond,
      fieldRegexI_eq_contains d "name" s hlit, fieldRegexI_eq_contains d "description" s hlit]

/-- Witness for C2's amended theorem: for the metacharacter-free search
"nordica", the filter matches the document named "Стул Nordica"
case-insensitively and the regex condition agrees with substring
containment; with a category given as well, both conditions must hold. -/
theorem filter_construction_semantics_witness :
    matchesFilter (buildFilter (some "стулья") (some "nordica"))
      [("name", .vStr "Стул Nordica"), ("category", .vStr "стулья")] =
      (fieldEq [("name", .vStr "Стул Nordica"), ("category", .vStr "стулья")] "category"
         "стулья" &&
       searchSpecCond [("name", .vStr "Стул Nordica"), ("category", .vStr "стулья")]
         "nordica") ∧
    matchesFilter (buildFilter (some "стулья") (some "nordica"))
      [("name", .vStr "Стул Nordica"), ("category", .vStr "стулья")] = true := by
  have h := filter_construction_semantics "стулья" "nordica"
    [("name", .vStr "Стул Nordica"), ("category", .vStr "стулья")]
    (by decide) (by decide) (by decide)
  exact ⟨h.1, by rw [h.1]; rfl⟩

end Mebella
